import Mathlib

/-!
Verification of the health-monitor dashboard's chart refresh logic.

Shallow embedding of the three client-side chart pipelines of the repository:

* `Patient`    — patient vitals time-series charts
  (`src/templates/data_management/snippets/patient-vitals-charts.html`,
  first script block, lines 28–226);
* `WardSeries` — per-ward environmental time-series charts
  (same file, second script block, lines 265–553);
* `Snapshot`   — cross-ward snapshot bar charts
  (`src/data_management/assets/js/chart-scripts.js`).

Modelling conventions:
* JavaScript numbers are modelled as rationals (`ℚ`);
* a `null`/`undefined` entry inside a readings array is `Option ℚ` with `none`;
* a payload field that may itself be absent (`undefined`) is an outer `Option`;
* a JS statement sequence that can throw midway (a method call on
  `undefined`, e.g. `data.temperature.filter(...)` when the field is absent)
  is modelled by an early return carrying exactly the mutations already
  performed, paired with a `Bool` that records whether the surrounding
  catch handler ran (i.e. the error was logged); a total function returning
  normally models the fact that the tick never crashes the timer loop;
* the `#chart-data` script element's text content is modelled at the level of
  the JSON value it holds (`JSON.parse ∘ JSON.stringify` round-trips on plain
  data), with a `malformed` constructor for un-parseable page content.
-/

/-- `Math.min(...xs)` applied to the non-empty spread `x :: xs`. -/
def minOf (x : ℚ) (xs : List ℚ) : ℚ := xs.foldl min x

/-- `Math.max(...xs)` applied to the non-empty spread `x :: xs`. -/
def maxOf (x : ℚ) (xs : List ℚ) : ℚ := xs.foldl max x

/-- `Math.max(floorPad, range * 0.1)` — the dynamic-axis padding rule shared by
every dynamic chart in both template variants. -/
def dynamicPad (floorPad range : ℚ) : ℚ := max floorPad (range * (1/10))

/-- One Chart.js line-chart instance as the source mutates it: the label
sequence (`chart.data.labels`), the single dataset's values
(`chart.data.datasets[0].data`) and the dynamic y-axis bounds
(`chart.options.scales.y.min` / `.max`; `none` = never assigned).
`labels` and `data` are `Option` because the source assigns raw payload
fields to them, which may be `undefined`. -/
structure SeriesChart where
  labels : Option (List String)
  data : Option (List (Option ℚ))
  yMin : Option ℚ
  yMax : Option ℚ
deriving DecidableEq

/-- Dynamic scaling without clamping (temperature charts,
patient-vitals-charts.html lines 181–190 and 472–481): keep the values with
`val !== null && val !== undefined`; if any remain, set
`y.min = min - padding` and `y.max = max + padding` where
`padding = Math.max(floorPad, range * 0.1)`; otherwise leave the bounds. -/
def openBounds (floorPad : ℚ) (c : SeriesChart) (vals : List (Option ℚ)) : SeriesChart :=
  match vals.filterMap id with
  | [] => c
  | x :: xs =>
    let mn := minOf x xs
    let mx := maxOf x xs
    let padding := dynamicPad floorPad (mx - mn)
    { c with yMin := some (mn - padding), yMax := some (mx + padding) }

/-- Dynamic scaling for percentage series (oxygen saturation lines 199–208,
humidity lines 490–499): as `openBounds` but with
`y.min = Math.max(0, min - padding)` and `y.max = Math.min(100, max + padding)`. -/
def pctBounds (floorPad : ℚ) (c : SeriesChart) (vals : List (Option ℚ)) : SeriesChart :=
  match vals.filterMap id with
  | [] => c
  | x :: xs =>
    let mn := minOf x xs
    let mx := maxOf x xs
    let padding := dynamicPad floorPad (mx - mn)
    { c with yMin := some (max 0 (mn - padding)), yMax := some (min 100 (mx + padding)) }

/-- Dynamic scaling for the noise and light-intensity series (lines 508–517
and 526–535): `y.min = Math.max(0, min - padding)` but the upper bound is the
unclamped `max + padding`. -/
def lowBounds (floorPad : ℚ) (c : SeriesChart) (vals : List (Option ℚ)) : SeriesChart :=
  match vals.filterMap id with
  | [] => c
  | x :: xs =>
    let mn := minOf x xs
    let mx := maxOf x xs
    let padding := dynamicPad floorPad (mx - mn)
    { c with yMin := some (max 0 (mn - padding)), yMax := some (mx + padding) }

namespace Patient

/-- The parsed JSON body of `/patient/:id/chart-data/` as the script accesses
it; each field may be absent (`undefined`) in a response the server did not
shape as expected. -/
structure RawPayload where
  labels : Option (List String)
  heart_rate : Option (List (Option ℚ))
  temperature : Option (List (Option ℚ))
  oxygen_saturation : Option (List (Option ℚ))
deriving DecidableEq

/-- The three chart variables of the patient-vitals script block. -/
structure State where
  heartRateChart : SeriesChart
  temperatureChart : SeriesChart
  oxygenChart : SeriesChart
deriving DecidableEq

/-- The `.then((data) => { ... })` callback of `updateCharts`
(patient-vitals-charts.html lines 168–211), statement by statement.
Heart-rate labels/data are assigned first; then temperature labels/data;
`data.temperature.filter` throws a TypeError when the field is absent
(caught by the `.catch`, `Bool` result `true`), keeping the mutations made so
far; likewise for `data.oxygen_saturation` after the oxygen labels/data
assignments.  `chart.update()` calls only redraw and are not modelled. -/
def applyChartData (s : State) (data : RawPayload) : State × Bool :=
  let hr := { s.heartRateChart with labels := data.labels, data := data.heart_rate }
  let t0 := { s.temperatureChart with labels := data.labels, data := data.temperature }
  match data.temperature with
  | none => ({ s with heartRateChart := hr, temperatureChart := t0 }, true)
  | some tl =>
    let t1 := openBounds (1/2) t0 tl
    let o0 := { s.oxygenChart with labels := data.labels, data := data.oxygen_saturation }
    match data.oxygen_saturation with
    | none => ({ s with heartRateChart := hr, temperatureChart := t1, oxygenChart := o0 }, true)
    | some ol =>
      ({ s with heartRateChart := hr, temperatureChart := t1,
                oxygenChart := pctBounds 1 o0 ol }, false)

/-- Whether the three canvas elements referenced by `initializeCharts`
are present in the document. -/
structure Dom where
  heartRateCanvas : Bool
  tempCanvas : Bool
  oxygenCanvas : Bool
deriving DecidableEq

/-- A chart as `new Chart(ctx, {...})` creates it: empty labels, empty data,
no dynamic y bounds assigned yet. -/
def freshChart : SeriesChart :=
  { labels := some [], data := some [], yMin := none, yMax := none }

/-- The chart variables as they stand when `initializeCharts` stops:
`none` = still unassigned. -/
structure InitState where
  heartRateChart : Option SeriesChart
  temperatureChart : Option SeriesChart
  oxygenChart : Option SeriesChart
deriving DecidableEq

/-- `initializeCharts` (patient-vitals-charts.html lines 37–163).
`document.getElementById(id)` yields `null` when the canvas is absent and
`.getContext("2d")` on `null` throws an uncaught TypeError, aborting the
whole DOMContentLoaded handler (so `updateCharts` and the interval timer are
never installed).  `.error` carries the chart variables already assigned
before the throw; `.ok` means all three charts were constructed. -/
def initializeCharts (dom : Dom) : Except InitState State :=
  if dom.heartRateCanvas then
    if dom.tempCanvas then
      if dom.oxygenCanvas then
        .ok { heartRateChart := freshChart, temperatureChart := freshChart,
              oxygenChart := freshChart }
      else .error { heartRateChart := some freshChart,
                    temperatureChart := some freshChart, oxygenChart := none }
    else .error { heartRateChart := some freshChart, temperatureChart := none,
                  oxygenChart := none }
  else .error { heartRateChart := none, temperatureChart := none, oxygenChart := none }

/-- The body delivered by `response.json()`: either the promise rejected
because the body was not valid JSON, or the parsed value. -/
inductive Body
  | invalid
  | valid (data : RawPayload)
deriving DecidableEq

/-- The outcome of `fetch(chartDataUrl)` for one tick: the promise was
rejected (network error), or a response arrived carrying its `ok` status flag
and a body. -/
inductive FetchResponse
  | rejected
  | response (ok : Bool) (body : Body)
deriving DecidableEq

/-- One full `updateCharts` tick (lines 165–215).  The source never inspects
`response.ok` (there is no status check in this variant), so the status flag
is ignored; a rejected fetch or an unparseable body falls to the `.catch`
(state unchanged, error logged), while any parsed JSON value reaches the
update callback.  The function is total: every failure is caught, so the tick
never crashes the interval loop. -/
def updateCharts (s : State) (r : FetchResponse) : State × Bool :=
  match r with
  | .rejected => (s, true)
  | .response _ .invalid => (s, true)
  | .response _ (.valid data) => applyChartData s data

end Patient

namespace WardSeries

/-- The parsed JSON body of `/ward/:slug/chart-data/`; each field may be
absent. -/
structure RawPayload where
  labels : Option (List String)
  temperature : Option (List (Option ℚ))
  humidity : Option (List (Option ℚ))
  noise_level : Option (List (Option ℚ))
  light_intensity : Option (List (Option ℚ))
deriving DecidableEq

/-- The four chart variables of the ward time-series script block. -/
structure State where
  temperatureChart : SeriesChart
  humidityChart : SeriesChart
  noiseChart : SeriesChart
  lightChart : SeriesChart
deriving DecidableEq

/-- The `.then((data) => { ... })` callback of the ward `updateCharts`
(patient-vitals-charts.html lines 464–538), statement by statement, with the
same throw-midway discipline as `Patient.applyChartData`: each chart's
labels/data are assigned before the `.filter` call on the same field can
throw.  Temperature uses floor padding 0.5 and no clamping; humidity floor 2
with both bounds clamped to [0, 100]; noise floor 2 and light floor 10 with
only the lower bound clamped to ≥ 0. -/
def applyChartData (s : State) (data : RawPayload) : State × Bool :=
  let t0 := { s.temperatureChart with labels := data.labels, data := data.temperature }
  match data.temperature with
  | none => ({ s with temperatureChart := t0 }, true)
  | some tl =>
    let t1 := openBounds (1/2) t0 tl
    let h0 := { s.humidityChart with labels := data.labels, data := data.humidity }
    match data.humidity with
    | none => ({ s with temperatureChart := t1, humidityChart := h0 }, true)
    | some hl =>
      let h1 := pctBounds 2 h0 hl
      let n0 := { s.noiseChart with labels := data.labels, data := data.noise_level }
      match data.noise_level with
      | none => ({ s with temperatureChart := t1, humidityChart := h1,
                          noiseChart := n0 }, true)
      | some nl =>
        let n1 := lowBounds 2 n0 nl
        let l0 := { s.lightChart with labels := data.labels, data := data.light_intensity }
        match data.light_intensity with
        | none => ({ s with temperatureChart := t1, humidityChart := h1,
                            noiseChart := n1, lightChart := l0 }, true)
        | some ll =>
          ({ s with temperatureChart := t1, humidityChart := h1,
                    noiseChart := n1, lightChart := lowBounds 10 l0 ll }, false)

end WardSeries

namespace Snapshot

/-- The cross-ward snapshot payload (`chart-scripts.js`): field names `wards`,
`temperature`, `humidity`, `noise`, `light_intensity`; any field may be
absent. -/
structure WardPayload where
  wards : Option (List String)
  temperature : Option (List (Option ℚ))
  humidity : Option (List (Option ℚ))
  noise : Option (List (Option ℚ))
  light_intensity : Option (List (Option ℚ))
deriving DecidableEq

/-- One snapshot bar-chart instance: labels and the single dataset.  The
snapshot script never assigns dynamic axis bounds. -/
structure SnapChart where
  labels : Option (List String)
  data : Option (List (Option ℚ))
deriving DecidableEq

/-- The text content of the `#chart-data` script element, modelled at the
level of the JSON value it holds: `malformed` for content `JSON.parse`
rejects, `json p` for a serialization of `p`. -/
inductive ScriptContent
  | malformed
  | json (data : WardPayload)
deriving DecidableEq

/-- The module-level state of `chart-scripts.js`: the four chart-instance
variables (initialised to `null`) plus the `#chart-data` element
(`none` = absent from the document). -/
structure State where
  temperatureChartInstance : Option SnapChart
  humidityChartInstance : Option SnapChart
  noiseChartInstance : Option SnapChart
  lightChartInstance : Option SnapChart
  chartDataScript : Option ScriptContent
deriving DecidableEq

/-- Whether the four canvas elements looked up by `renderCharts` exist. -/
structure Dom where
  tempCtx : Bool
  humCtx : Bool
  noiseCtx : Bool
  lightCtx : Bool
deriving DecidableEq

/-- `updateChartData(newData)` (chart-scripts.js lines 234–265): guarded by
all four chart instances being non-null; inside the guard each chart's labels
become `newData.wards` and its data the matching field, with
`newData.noise || []` and `newData.light_intensity || []` substituting an
empty array for an absent field; finally, when the `#chart-data` element
exists its text content is overwritten with `JSON.stringify(newData)`.
If any instance is null the whole function body is skipped. -/
def updateChartData (s : State) (newData : WardPayload) : State :=
  match s.temperatureChartInstance, s.humidityChartInstance,
        s.noiseChartInstance, s.lightChartInstance with
  | some _, some _, some _, some _ =>
    { temperatureChartInstance := some { labels := newData.wards, data := newData.temperature },
      humidityChartInstance := some { labels := newData.wards, data := newData.humidity },
      noiseChartInstance := some { labels := newData.wards,
                                   data := some (newData.noise.getD []) },
      lightChartInstance := some { labels := newData.wards,
                                   data := some (newData.light_intensity.getD []) },
      chartDataScript :=
        match s.chartDataScript with
        | some _ => some (.json newData)
        | none => none }
  | _, _, _, _ => s

/-- `renderCharts()` (chart-scripts.js lines 7–232): return if the
`#chart-data` element is absent; return if its content fails to parse; return
if any of the four canvases is missing; then either update all four existing
instances in place (without touching the script element) or create all four
charts from the parsed data (`new Chart` construction modelled as always
succeeding, as the try/catch around the noise and light charts assumes). -/
def renderCharts (dom : Dom) (s : State) : State :=
  match s.chartDataScript with
  | none => s
  | some .malformed => s
  | some (.json data) =>
    if !dom.tempCtx || !dom.humCtx || !dom.noiseCtx || !dom.lightCtx then s
    else
      match s.temperatureChartInstance, s.humidityChartInstance,
            s.noiseChartInstance, s.lightChartInstance with
      | some _, some _, some _, some _ =>
        { s with
          temperatureChartInstance := some { labels := data.wards, data := data.temperature },
          humidityChartInstance := some { labels := data.wards, data := data.humidity },
          noiseChartInstance := some { labels := data.wards,
                                       data := some (data.noise.getD []) },
          lightChartInstance := some { labels := data.wards,
                                       data := some (data.light_intensity.getD []) } }
      | _, _, _, _ =>
        { s with
          temperatureChartInstance := some { labels := data.wards, data := data.temperature },
          humidityChartInstance := some { labels := data.wards, data := data.humidity },
          noiseChartInstance := some { labels := data.wards,
                                       data := some (data.noise.getD []) },
          lightChartInstance := some { labels := data.wards,
                                       data := some (data.light_intensity.getD []) } }

/-- The outcome of one `fetch("/dashboard/htmx-charts-json/")`:
rejected promise, response with `ok` false (the explicit
`if (!response.ok) throw` on line 280), body that `response.json()` rejects,
or a parsed payload. -/
inductive FetchOutcome
  | rejected
  | httpError
  | jsonError
  | ok (data : WardPayload)
deriving DecidableEq

/-- `fetchAndUpdateCharts` (chart-scripts.js lines 275–291): the whole body
sits in a try/catch, so every failure is logged (`Bool` result `true`) and
leaves the state untouched; a parsed payload is forwarded to
`updateChartData`.  Totality models that a failing tick never kills the
`setInterval` loop. -/
def fetchAndUpdateCharts (s : State) (r : FetchOutcome) : State × Bool :=
  match r with
  | .rejected => (s, true)
  | .httpError => (s, true)
  | .jsonError => (s, true)
  | .ok data => (updateChartData s data, false)

end Snapshot

namespace Scheduler

/-- Events of the browser event loop relevant to the refresh timer:
a `setInterval` tick firing, or an in-flight fetch settling
(resolving or rejecting). -/
inductive LoopEvent
  | tick
  | settle
deriving DecidableEq

/-- Effect of one event on the number of in-flight fetches.
`setInterval(fetchAndUpdateCharts, 2000)` (chart-scripts.js line 294) invokes
the handler on every tick with no guard of any kind, and the handler's first
await starts a fetch unconditionally, so a tick always increments the
in-flight count; a settling fetch decrements it. -/
def inFlightStep (n : ℕ) : LoopEvent → ℕ
  | .tick => n + 1
  | .settle => n - 1

/-- In-flight fetch count after a sequence of loop events, starting idle. -/
def inFlightAfter (es : List LoopEvent) : ℕ := es.foldl inFlightStep 0

end Scheduler

/-! ### Helper lemmas about the bound-update rules -/

theorem openBounds_nil (f : ℚ) (c : SeriesChart) (v : List (Option ℚ))
    (h : v.filterMap id = []) : openBounds f c v = c := by
  unfold openBounds; rw [h]

theorem openBounds_cons (f : ℚ) (c : SeriesChart) (v : List (Option ℚ)) (x : ℚ) (xs : List ℚ)
    (h : v.filterMap id = x :: xs) :
    openBounds f c v =
      { c with yMin := some (minOf x xs - dynamicPad f (maxOf x xs - minOf x xs)),
               yMax := some (maxOf x xs + dynamicPad f (maxOf x xs - minOf x xs)) } := by
  unfold openBounds; rw [h]

theorem pctBounds_nil (f : ℚ) (c : SeriesChart) (v : List (Option ℚ))
    (h : v.filterMap id = []) : pctBounds f c v = c := by
  unfold pctBounds; rw [h]

theorem pctBounds_cons (f : ℚ) (c : SeriesChart) (v : List (Option ℚ)) (x : ℚ) (xs : List ℚ)
    (h : v.filterMap id = x :: xs) :
    pctBounds f c v =
      { c with yMin := some (max 0 (minOf x xs - dynamicPad f (maxOf x xs - minOf x xs))),
               yMax := some (min 100 (maxOf x xs + dynamicPad f (maxOf x xs - minOf x xs))) } := by
  unfold pctBounds; rw [h]

theorem lowBounds_nil (f : ℚ) (c : SeriesChart) (v : List (Option ℚ))
    (h : v.filterMap id = []) : lowBounds f c v = c := by
  unfold lowBounds; rw [h]

theorem lowBounds_cons (f : ℚ) (c : SeriesChart) (v : List (Option ℚ)) (x : ℚ) (xs : List ℚ)
    (h : v.filterMap id = x :: xs) :
    lowBounds f c v =
      { c with yMin := some (max 0 (minOf x xs - dynamicPad f (maxOf x xs - minOf x xs))),
               yMax := some (maxOf x xs + dynamicPad f (maxOf x xs - minOf x xs)) } := by
  unfold lowBounds; rw [h]

/-! ### Projection lemmas for the patient-vitals apply callback -/

theorem patient_apply_heart (s : Patient.State) (p : Patient.RawPayload) :
    (Patient.applyChartData s p).1.heartRateChart =
      { s.heartRateChart with labels := p.labels, data := p.heart_rate } := by
  unfold Patient.applyChartData
  cases p.temperature <;> cases p.oxygen_saturation <;> rfl

theorem patient_apply_temp (s : Patient.State) (p : Patient.RawPayload)
    (tl : List (Option ℚ)) (ht : p.temperature = some tl) :
    (Patient.applyChartData s p).1.temperatureChart =
      openBounds (1/2)
        { s.temperatureChart with labels := p.labels, data := p.temperature } tl := by
  unfold Patient.applyChartData
  rw [ht]
  cases p.oxygen_saturation <;> rfl

theorem patient_apply_oxygen (s : Patient.State) (p : Patient.RawPayload)
    (tl ol : List (Option ℚ)) (ht : p.temperature = some tl)
    (ho : p.oxygen_saturation = some ol) :
    (Patient.applyChartData s p).1.oxygenChart =
      pctBounds 1
        { s.oxygenChart with labels := p.labels, data := p.oxygen_saturation } ol := by
  unfold Patient.applyChartData
  rw [ht, ho]

/-! ### Projection lemmas for the ward time-series apply callback -/

theorem wardSeries_apply_temp (s : WardSeries.State) (q : WardSeries.RawPayload)
    (tl : List (Option ℚ)) (ht : q.temperature = some tl) :
    (WardSeries.applyChartData s q).1.temperatureChart =
      openBounds (1/2)
        { s.temperatureChart with labels := q.labels, data := q.temperature } tl := by
  unfold WardSeries.applyChartData
  rw [ht]
  cases q.humidity <;> cases q.noise_level <;> cases q.light_intensity <;> rfl

theorem wardSeries_apply_humidity (s : WardSeries.State) (q : WardSeries.RawPayload)
    (tl hl : List (Option ℚ)) (ht : q.temperature = some tl) (hh : q.humidity = some hl) :
    (WardSeries.applyChartData s q).1.humidityChart =
      pctBounds 2
        { s.humidityChart with labels := q.labels, data := q.humidity } hl := by
  unfold WardSeries.applyChartData
  rw [ht, hh]
  cases q.noise_level <;> cases q.light_intensity <;> rfl

theorem wardSeries_apply_noise (s : WardSeries.State) (q : WardSeries.RawPayload)
    (tl hl nl : List (Option ℚ)) (ht : q.temperature = some tl)
    (hh : q.humidity = some hl) (hn : q.noise_level = some nl) :
    (WardSeries.applyChartData s q).1.noiseChart =
      lowBounds 2
        { s.noiseChart with labels := q.labels, data := q.noise_level } nl := by
  unfold WardSeries.applyChartData
  rw [ht, hh, hn]
  cases q.light_intensity <;> rfl

theorem wardSeries_apply_light (s : WardSeries.State) (q : WardSeries.RawPayload)
    (tl hl nl ll : List (Option ℚ)) (ht : q.temperature = some tl)
    (hh : q.humidity = some hl) (hn : q.noise_level = some nl)
    (hli : q.light_intensity = some ll) :
    (WardSeries.applyChartData s q).1.lightChart =
      lowBounds 10
        { s.lightChart with labels := q.labels, data := q.light_intensity } ll := by
  unfold WardSeries.applyChartData
  rw [ht, hh, hn, hli]

/-! ### Lemmas for the snapshot update routine -/

theorem snapshot_update_eq (s : Snapshot.State) (p : Snapshot.WardPayload)
    (tc hc nc lc : Snapshot.SnapChart)
    (h1 : s.temperatureChartInstance = some tc) (h2 : s.humidityChartInstance = some hc)
    (h3 : s.noiseChartInstance = some nc) (h4 : s.lightChartInstance = some lc) :
    Snapshot.updateChartData s p =
      { temperatureChartInstance := some { labels := p.wards, data := p.temperature },
        humidityChartInstance := some { labels := p.wards, data := p.humidity },
        noiseChartInstance := some { labels := p.wards, data := some (p.noise.getD []) },
        lightChartInstance := some { labels := p.wards,
                                     data := some (p.light_intensity.getD []) },
        chartDataScript :=
          match s.chartDataScript with
          | some _ => some (.json p)
          | none => none } := by
  unfold Snapshot.updateChartData
  rw [h1, h2, h3, h4]

theorem snapshot_update_noop (s : Snapshot.State) (p : Snapshot.WardPayload)
    (h : s.temperatureChartInstance = none ∨ s.humidityChartInstance = none ∨
         s.noiseChartInstance = none ∨ s.lightChartInstance = none) :
    Snapshot.updateChartData s p = s := by
  unfold Snapshot.updateChartData
  rcases h with h | h | h | h <;> rw [h] <;>
    cases s.temperatureChartInstance <;> cases s.humidityChartInstance <;>
    cases s.noiseChartInstance <;> cases s.lightChartInstance <;> rfl

theorem openBounds_labels (f : ℚ) (c : SeriesChart) (v : List (Option ℚ)) :
    (openBounds f c v).labels = c.labels := by
  unfold openBounds; cases v.filterMap id <;> rfl

theorem openBounds_data (f : ℚ) (c : SeriesChart) (v : List (Option ℚ)) :
    (openBounds f c v).data = c.data := by
  unfold openBounds; cases v.filterMap id <;> rfl

theorem pctBounds_labels (f : ℚ) (c : SeriesChart) (v : List (Option ℚ)) :
    (pctBounds f c v).labels = c.labels := by
  unfold pctBounds; cases v.filterMap id <;> rfl

theorem pctBounds_data (f : ℚ) (c : SeriesChart) (v : List (Option ℚ)) :
    (pctBounds f c v).data = c.data := by
  unfold pctBounds; cases v.filterMap id <;> rfl

/-! ### Claim C1 -/

/-- C1: the claim "for every dynamic-axis series the axis bounds become
`[min - pad, max + pad]`" is false as stated: for the ward noise series with
values `[1]` (floor padding 2) the claim predicts a lower bound of
`1 - 2 = -1`, but the code sets `Math.max(0, min - padding) = 0`. -/
theorem c1_counterexample :
    ((WardSeries.applyChartData
        { temperatureChart := { labels := some [], data := some [], yMin := none, yMax := none },
          humidityChart := { labels := some [], data := some [], yMin := none, yMax := none },
          noiseChart := { labels := some [], data := some [], yMin := none, yMax := none },
          lightChart := { labels := some [], data := some [], yMin := none, yMax := none } }
        { labels := some ["Ward A"], temperature := some [some 21],
          humidity := some [some 40], noise_level := some [some 1],
          light_intensity := some [some 300] }).1.noiseChart.yMin = some 0) ∧
    ((0 : ℚ) ≠ (1 : ℚ) - dynamicPad 2 ((1 : ℚ) - 1)) := by
  constructor
  · rw [wardSeries_apply_noise _ _ [some 21] [some 40] [some 1] rfl rfl rfl,
        lowBounds_cons 2 _ [some 1] 1 [] rfl]
    norm_num [minOf, maxOf, dynamicPad, min_def, max_def]
  · norm_num [dynamicPad, max_def]

/-- C1 (amended): for every dynamic-axis series with at least one non-absent
value, the padding is `max(floorPad, range * 0.1)` over the non-absent values
and the candidate bounds are `[min - pad, max + pad]`; the temperature series
(floor 0.5, both variants) receives exactly those bounds, while the noise
(floor 2) and light-intensity (floor 10) series additionally clamp the lower
bound to at least 0 (the percentage series are covered by C2). -/
theorem c1_amended_dynamic_bounds
    (s : Patient.State) (sw : WardSeries.State)
    (p : Patient.RawPayload) (q : WardSeries.RawPayload)
    (ptl : List (Option ℚ)) (px : ℚ) (pxs : List ℚ)
    (hpt : p.temperature = some ptl) (hpv : ptl.filterMap id = px :: pxs)
    (tl hl nl ll : List (Option ℚ))
    (hqt : q.temperature = some tl) (hqh : q.humidity = some hl)
    (hqn : q.noise_level = some nl) (hql : q.light_intensity = some ll)
    (tx : ℚ) (txs : List ℚ) (htv : tl.filterMap id = tx :: txs)
    (nx : ℚ) (nxs : List ℚ) (hnv : nl.filterMap id = nx :: nxs)
    (lx : ℚ) (lxs : List ℚ) (hlv : ll.filterMap id = lx :: lxs) :
    ((Patient.applyChartData s p).1.temperatureChart.yMin
        = some (minOf px pxs - dynamicPad (1/2) (maxOf px pxs - minOf px pxs)) ∧
     (Patient.applyChartData s p).1.temperatureChart.yMax
        = some (maxOf px pxs + dynamicPad (1/2) (maxOf px pxs - minOf px pxs)))
    ∧
    ((WardSeries.applyChartData sw q).1.temperatureChart.yMin
        = some (minOf tx txs - dynamicPad (1/2) (maxOf tx txs - minOf tx txs)) ∧
     (WardSeries.applyChartData sw q).1.temperatureChart.yMax
        = some (maxOf tx txs + dynamicPad (1/2) (maxOf tx txs - minOf tx txs)))
    ∧
    ((WardSeries.applyChartData sw q).1.noiseChart.yMin
        = some (max 0 (minOf nx nxs - dynamicPad 2 (maxOf nx nxs - minOf nx nxs))) ∧
     (WardSeries.applyChartData sw q).1.noiseChart.yMax
        = some (maxOf nx nxs + dynamicPad 2 (maxOf nx nxs - minOf nx nxs)))
    ∧
    ((WardSeries.applyChartData sw q).1.lightChart.yMin
        = some (max 0 (minOf lx lxs - dynamicPad 10 (maxOf lx lxs - minOf lx lxs))) ∧
     (WardSeries.applyChartData sw q).1.lightChart.yMax
        = some (maxOf lx lxs + dynamicPad 10 (maxOf lx lxs - minOf lx lxs))) := by
  refine ⟨⟨?_, ?_⟩, ⟨?_, ?_⟩, ⟨?_, ?_⟩, ⟨?_, ?_⟩⟩
  · rw [patient_apply_temp s p ptl hpt, openBounds_cons _ _ _ _ _ hpv]
  · rw [patient_apply_temp s p ptl hpt, openBounds_cons _ _ _ _ _ hpv]
  · rw [wardSeries_apply_temp sw q tl hqt, openBounds_cons _ _ _ _ _ htv]
  · rw [wardSeries_apply_temp sw q tl hqt, openBounds_cons _ _ _ _ _ htv]
  · rw [wardSeries_apply_noise sw q tl hl nl hqt hqh hqn, lowBounds_cons _ _ _ _ _ hnv]
  · rw [wardSeries_apply_noise sw q tl hl nl hqt hqh hqn, lowBounds_cons _ _ _ _ _ hnv]
  · rw [wardSeries_apply_light sw q tl hl nl ll hqt hqh hqn hql, lowBounds_cons _ _ _ _ _ hlv]
  · rw [wardSeries_apply_light sw q tl hl nl ll hqt hqh hqn hql, lowBounds_cons _ _ _ _ _ hlv]

/-- Witness for C1 (amended): the spec's own example — temperature values
`[20, 22, 24]` with floor padding 0.5 give bounds `[19.5, 24.5]`. -/
theorem c1_amended_dynamic_bounds_witness :
    (Patient.applyChartData
        { heartRateChart := { labels := some [], data := some [], yMin := none, yMax := none },
          temperatureChart := { labels := some [], data := some [], yMin := none, yMax := none },
          oxygenChart := { labels := some [], data := some [], yMin := none, yMax := none } }
        { labels := some ["a", "b", "c"], heart_rate := some [some 70, some 71, some 72],
          temperature := some [some 20, some 22, some 24],
          oxygen_saturation := some [some 98, some 99, some 100] }).1.temperatureChart.yMin
      = some (39/2) ∧
    (Patient.applyChartData
        { heartRateChart := { labels := some [], data := some [], yMin := none, yMax := none },
          temperatureChart := { labels := some [], data := some [], yMin := none, yMax := none },
          oxygenChart := { labels := some [], data := some [], yMin := none, yMax := none } }
        { labels := some ["a", "b", "c"], heart_rate := some [some 70, some 71, some 72],
          temperature := some [some 20, some 22, some 24],
          oxygen_saturation := some [some 98, some 99, some 100] }).1.temperatureChart.yMax
      = some (49/2) := by
  have h := c1_amended_dynamic_bounds
    { heartRateChart := { labels := some [], data := some [], yMin := none, yMax := none },
      temperatureChart := { labels := some [], data := some [], yMin := none, yMax := none },
      oxygenChart := { labels := some [], data := some [], yMin := none, yMax := none } }
    { temperatureChart := { labels := some [], data := some [], yMin := none, yMax := none },
      humidityChart := { labels := some [], data := some [], yMin := none, yMax := none },
      noiseChart := { labels := some [], data := some [], yMin := none, yMax := none },
      lightChart := { labels := some [], data := some [], yMin := none, yMax := none } }
    { labels := some ["a", "b", "c"], heart_rate := some [some 70, some 71, some 72],
      temperature := some [some 20, some 22, some 24],
      oxygen_saturation := some [some 98, some 99, some 100] }
    { labels := some ["w"], temperature := some [some 21], humidity := some [some 40],
      noise_level := some [some 35], light_intensity := some [some 300] }
    [some 20, some 22, some 24] 20 [22, 24] rfl rfl
    [some 21] [some 40] [some 35] [some 300] rfl rfl rfl rfl
    21 [] rfl 35 [] rfl 300 [] rfl
  constructor
  · rw [h.1.1]; norm_num [minOf, maxOf, dynamicPad, min_def, max_def]
  · rw [h.1.2]; norm_num [minOf, maxOf, dynamicPad, min_def, max_def]

/-! ### Claim C2 -/

/-- C2: for every percentage-bounded series with at least one non-absent
value — oxygen saturation (patient variant, floor padding 1) and humidity
(ward variant, floor padding 2) — `apply` sets
`y.min = Math.max(0, min - padding)` and `y.max = Math.min(100, max + padding)`,
so the lower bound is clamped to at least 0 and the upper bound to at
most 100. -/
theorem c2_percentage_clamp
    (s : Patient.State) (sw : WardSeries.State)
    (p : Patient.RawPayload) (q : WardSeries.RawPayload)
    (ptl pol : List (Option ℚ)) (hpt : p.temperature = some ptl)
    (hpo : p.oxygen_saturation = some pol)
    (ox : ℚ) (oxs : List ℚ) (hov : pol.filterMap id = ox :: oxs)
    (tl hl : List (Option ℚ)) (hqt : q.temperature = some tl) (hqh : q.humidity = some hl)
    (hx : ℚ) (hxs : List ℚ) (hhv : hl.filterMap id = hx :: hxs) :
    ((Patient.applyChartData s p).1.oxygenChart.yMin
        = some (max 0 (minOf ox oxs - dynamicPad 1 (maxOf ox oxs - minOf ox oxs))) ∧
     (Patient.applyChartData s p).1.oxygenChart.yMax
        = some (min 100 (maxOf ox oxs + dynamicPad 1 (maxOf ox oxs - minOf ox oxs))) ∧
     (0 : ℚ) ≤ max 0 (minOf ox oxs - dynamicPad 1 (maxOf ox oxs - minOf ox oxs)) ∧
     min 100 (maxOf ox oxs + dynamicPad 1 (maxOf ox oxs - minOf ox oxs)) ≤ (100 : ℚ))
    ∧
    ((WardSeries.applyChartData sw q).1.humidityChart.yMin
        = some (max 0 (minOf hx hxs - dynamicPad 2 (maxOf hx hxs - minOf hx hxs))) ∧
     (WardSeries.applyChartData sw q).1.humidityChart.yMax
        = some (min 100 (maxOf hx hxs + dynamicPad 2 (maxOf hx hxs - minOf hx hxs))) ∧
     (0 : ℚ) ≤ max 0 (minOf hx hxs - dynamicPad 2 (maxOf hx hxs - minOf hx hxs)) ∧
     min 100 (maxOf hx hxs + dynamicPad 2 (maxOf hx hxs - minOf hx hxs)) ≤ (100 : ℚ)) := by
  refine ⟨⟨?_, ?_, le_max_left _ _, min_le_left _ _⟩,
          ⟨?_, ?_, le_max_left _ _, min_le_left _ _⟩⟩
  · rw [patient_apply_oxygen s p ptl pol hpt hpo, pctBounds_cons _ _ _ _ _ hov]
  · rw [patient_apply_oxygen s p ptl pol hpt hpo, pctBounds_cons _ _ _ _ _ hov]
  · rw [wardSeries_apply_humidity sw q tl hl hqt hqh, pctBounds_cons _ _ _ _ _ hhv]
  · rw [wardSeries_apply_humidity sw q tl hl hqt hqh, pctBounds_cons _ _ _ _ _ hhv]

/-- Witness for C2: the spec's example — humidity values `[98, 100]` produce
an upper bound of exactly 100 (the computed `100 + 2` clamps to 100). -/
theorem c2_percentage_clamp_witness :
    (WardSeries.applyChartData
        { temperatureChart := { labels := some [], data := some [], yMin := none, yMax := none },
          humidityChart := { labels := some [], data := some [], yMin := none, yMax := none },
          noiseChart := { labels := some [], data := some [], yMin := none, yMax := none },
          lightChart := { labels := some [], data := some [], yMin := none, yMax := none } }
        { labels := some ["w1", "w2"], temperature := some [some 21, some 22],
          humidity := some [some 98, some 100], noise_level := some [some 35, some 36],
          light_intensity := some [some 300, some 310] }).1.humidityChart.yMax
      = some 100 := by
  have h := c2_percentage_clamp
    { heartRateChart := { labels := some [], data := some [], yMin := none, yMax := none },
      temperatureChart := { labels := some [], data := some [], yMin := none, yMax := none },
      oxygenChart := { labels := some [], data := some [], yMin := none, yMax := none } }
    { temperatureChart := { labels := some [], data := some [], yMin := none, yMax := none },
      humidityChart := { labels := some [], data := some [], yMin := none, yMax := none },
      noiseChart := { labels := some [], data := some [], yMin := none, yMax := none },
      lightChart := { labels := some [], data := some [], yMin := none, yMax := none } }
    { labels := some ["a"], heart_rate := some [some 70],
      temperature := some [some 37], oxygen_saturation := some [some 98] }
    { labels := some ["w1", "w2"], temperature := some [some 21, some 22],
      humidity := some [some 98, some 100], noise_level := some [some 35, some 36],
      light_intensity := some [some 300, some 310] }
    [some 37] [some 98] rfl rfl 98 [] rfl
    [some 21, some 22] [some 98, some 100] rfl rfl 98 [100] rfl
  rw [h.2.2.1]
  norm_num [minOf, maxOf, dynamicPad, min_def, max_def]

/-! ### Claim C3 -/

/-- C3: for every dynamic-axis series the min/max are computed only over
non-absent values — concretely, a temperature series `[10, null, 12]` gets
bounds derived from `[10, 12]`, namely `[10 - 0.5, 12 + 0.5]` — and when every
value of a series is absent, `apply` leaves that chart's prior axis bounds
unchanged (shown here for all six dynamic series of both time-series
variants). -/
theorem c3_absent_value_filtering
    (s : Patient.State) (sw : WardSeries.State)
    (p : Patient.RawPayload) (q : WardSeries.RawPayload)
    (ptl pol : List (Option ℚ)) (hpt : p.temperature = some ptl)
    (hpo : p.oxygen_saturation = some pol)
    (hptn : ptl.filterMap id = []) (hpon : pol.filterMap id = [])
    (tl hl nl ll : List (Option ℚ))
    (hqt : q.temperature = some tl) (hqh : q.humidity = some hl)
    (hqn : q.noise_level = some nl) (hql : q.light_intensity = some ll)
    (htn : tl.filterMap id = []) (hhn : hl.filterMap id = [])
    (hnn : nl.filterMap id = []) (hln : ll.filterMap id = []) :
    ((Patient.applyChartData
        { heartRateChart := { labels := some [], data := some [], yMin := none, yMax := none },
          temperatureChart := { labels := some [], data := some [], yMin := none, yMax := none },
          oxygenChart := { labels := some [], data := some [], yMin := none, yMax := none } }
        { labels := some ["a", "b", "c"], heart_rate := some [some 70, some 71, some 72],
          temperature := some [some 10, none, some 12],
          oxygen_saturation := some [some 98, some 99, some 100] }).1.temperatureChart.yMin
        = some (minOf 10 [12] - dynamicPad (1/2) (maxOf 10 [12] - minOf 10 [12])) ∧
     (Patient.applyChartData
        { heartRateChart := { labels := some [], data := some [], yMin := none, yMax := none },
          temperatureChart := { labels := some [], data := some [], yMin := none, yMax := none },
          oxygenChart := { labels := some [], data := some [], yMin := none, yMax := none } }
        { labels := some ["a", "b", "c"], heart_rate := some [some 70, some 71, some 72],
          temperature := some [some 10, none, some 12],
          oxygen_saturation := some [some 98, some 99, some 100] }).1.temperatureChart.yMax
        = some (maxOf 10 [12] + dynamicPad (1/2) (maxOf 10 [12] - minOf 10 [12])))
    ∧
    ((Patient.applyChartData s p).1.temperatureChart.yMin = s.temperatureChart.yMin ∧
     (Patient.applyChartData s p).1.temperatureChart.yMax = s.temperatureChart.yMax ∧
     (Patient.applyChartData s p).1.oxygenChart.yMin = s.oxygenChart.yMin ∧
     (Patient.applyChartData s p).1.oxygenChart.yMax = s.oxygenChart.yMax)
    ∧
    ((WardSeries.applyChartData sw q).1.temperatureChart.yMin = sw.temperatureChart.yMin ∧
     (WardSeries.applyChartData sw q).1.temperatureChart.yMax = sw.temperatureChart.yMax ∧
     (WardSeries.applyChartData sw q).1.humidityChart.yMin = sw.humidityChart.yMin ∧
     (WardSeries.applyChartData sw q).1.humidityChart.yMax = sw.humidityChart.yMax ∧
     (WardSeries.applyChartData sw q).1.noiseChart.yMin = sw.noiseChart.yMin ∧
     (WardSeries.applyChartData sw q).1.noiseChart.yMax = sw.noiseChart.yMax ∧
     (WardSeries.applyChartData sw q).1.lightChart.yMin = sw.lightChart.yMin ∧
     (WardSeries.applyChartData sw q).1.lightChart.yMax = sw.lightChart.yMax) := by
  refine ⟨⟨?_, ?_⟩, ⟨?_, ?_, ?_, ?_⟩, ⟨?_, ?_, ?_, ?_, ?_, ?_, ?_, ?_⟩⟩
  · rw [patient_apply_temp _ _ [some 10, none, some 12] rfl,
        openBounds_cons _ _ [some 10, none, some 12] 10 [12] rfl]
  · rw [patient_apply_temp _ _ [some 10, none, some 12] rfl,
        openBounds_cons _ _ [some 10, none, some 12] 10 [12] rfl]
  · rw [patient_apply_temp s p ptl hpt, openBounds_nil _ _ _ hptn]
  · rw [patient_apply_temp s p ptl hpt, openBounds_nil _ _ _ hptn]
  · rw [patient_apply_oxygen s p ptl pol hpt hpo, pctBounds_nil _ _ _ hpon]
  · rw [patient_apply_oxygen s p ptl pol hpt hpo, pctBounds_nil _ _ _ hpon]
  · rw [wardSeries_apply_temp sw q tl hqt, openBounds_nil _ _ _ htn]
  · rw [wardSeries_apply_temp sw q tl hqt, openBounds_nil _ _ _ htn]
  · rw [wardSeries_apply_humidity sw q tl hl hqt hqh, pctBounds_nil _ _ _ hhn]
  · rw [wardSeries_apply_humidity sw q tl hl hqt hqh, pctBounds_nil _ _ _ hhn]
  · rw [wardSeries_apply_noise sw q tl hl nl hqt hqh hqn, lowBounds_nil _ _ _ hnn]
  · rw [wardSeries_apply_noise sw q tl hl nl hqt hqh hqn, lowBounds_nil _ _ _ hnn]
  · rw [wardSeries_apply_light sw q tl hl nl ll hqt hqh hqn hql, lowBounds_nil _ _ _ hln]
  · rw [wardSeries_apply_light sw q tl hl nl ll hqt hqh hqn hql, lowBounds_nil _ _ _ hln]

/-- Witness for C3: an all-null payload leaves the previously set bounds
(here `[19.5, 24.5]` on every chart) untouched. -/
theorem c3_absent_value_filtering_witness :
    (Patient.applyChartData
        { heartRateChart := { labels := some [], data := some [], yMin := none, yMax := none },
          temperatureChart := { labels := some [], data := some [],
                                yMin := some (39/2), yMax := some (49/2) },
          oxygenChart := { labels := some [], data := some [],
                           yMin := some 90, yMax := some 100 } }
        { labels := some ["a"], heart_rate := some [none],
          temperature := some [none, none],
          oxygen_saturation := some [none] }).1.temperatureChart.yMin = some (39/2) := by
  have h := c3_absent_value_filtering
    { heartRateChart := { labels := some [], data := some [], yMin := none, yMax := none },
      temperatureChart := { labels := some [], data := some [],
                            yMin := some (39/2), yMax := some (49/2) },
      oxygenChart := { labels := some [], data := some [],
                       yMin := some 90, yMax := some 100 } }
    { temperatureChart := { labels := some [], data := some [], yMin := none, yMax := none },
      humidityChart := { labels := some [], data := some [], yMin := none, yMax := none },
      noiseChart := { labels := some [], data := some [], yMin := none, yMax := none },
      lightChart := { labels := some [], data := some [], yMin := none, yMax := none } }
    { labels := some ["a"], heart_rate := some [none],
      temperature := some [none, none], oxygen_saturation := some [none] }
    { labels := some ["w"], temperature := some [none], humidity := some [none],
      noise_level := some [none], light_intensity := some [none] }
    [none, none] [none] rfl rfl rfl rfl
    [none] [none] [none] [none] rfl rfl rfl rfl rfl rfl rfl rfl
  exact h.2.1.1

/-! ### Claim C4 -/

/-- C4: the claim "every failing fetch (network error, non-success HTTP
status, or malformed payload) leaves chart state equal to the pre-failure
snapshot" is false for the patient variant: its `updateCharts` never inspects
`response.ok`, so a non-success HTTP response whose body is valid JSON (here
the response `ok = false` with body `{}`) reaches the update callback and
overwrites the heart-rate chart's labels (previously `["10:00"]`) with
`undefined` before the TypeError at `data.temperature.filter` aborts the
tick. -/
theorem c4_counterexample :
    ((Patient.updateCharts
        { heartRateChart := { labels := some ["10:00"], data := some [some 72],
                              yMin := none, yMax := none },
          temperatureChart := { labels := some ["10:00"], data := some [some 37],
                                yMin := none, yMax := none },
          oxygenChart := { labels := some ["10:00"], data := some [some 98],
                           yMin := none, yMax := none } }
        (.response false (.valid
          { labels := none, heart_rate := none, temperature := none,
            oxygen_saturation := none }))).1.heartRateChart.labels = none) ∧
    (none : Option (List String)) ≠ some ["10:00"] := by
  exact ⟨rfl, by simp⟩

/-- C4 (amended): a rejected fetch (network error) and a body that fails to
parse as JSON leave chart state unchanged with the error logged, in both the
patient variant and the snapshot variant, and the snapshot variant — which
does check `response.ok` — also leaves state unchanged on a non-success HTTP
status; the patient variant, however, never inspects the HTTP status, so a
non-success response with a valid-JSON body is processed as data (see the
counterexample).  Every failure path is caught and logged, so the interval
loop proceeds to the next tick. -/
theorem c4_amended_failure_preserves_state
    (s : Patient.State) (ss : Snapshot.State)
    (r : Patient.FetchResponse) (fr : Snapshot.FetchOutcome)
    (hr : r = .rejected ∨ ∃ st, r = .response st .invalid)
    (hfr : fr = .rejected ∨ fr = .httpError ∨ fr = .jsonError) :
    Patient.updateCharts s r = (s, true) ∧
    Snapshot.fetchAndUpdateCharts ss fr = (ss, true) := by
  constructor
  · rcases hr with h | ⟨st, h⟩ <;> subst h <;> rfl
  · rcases hfr with h | h | h <;> subst h <;> rfl

/-- Witness for C4 (amended): a network error leaves a concrete patient state
untouched, and a non-success HTTP status leaves a concrete snapshot state
untouched, each with the error logged. -/
theorem c4_amended_failure_preserves_state_witness :
    Patient.updateCharts
      { heartRateChart := { labels := some ["10:00"], data := some [some 72],
                            yMin := none, yMax := none },
        temperatureChart := { labels := some ["10:00"], data := some [some 37],
                              yMin := none, yMax := none },
        oxygenChart := { labels := some ["10:00"], data := some [some 98],
                         yMin := none, yMax := none } } .rejected
      = ({ heartRateChart := { labels := some ["10:00"], data := some [some 72],
                               yMin := none, yMax := none },
           temperatureChart := { labels := some ["10:00"], data := some [some 37],
                                 yMin := none, yMax := none },
           oxygenChart := { labels := some ["10:00"], data := some [some 98],
                            yMin := none, yMax := none } }, true) ∧
    Snapshot.fetchAndUpdateCharts
      { temperatureChartInstance := none, humidityChartInstance := none,
        noiseChartInstance := none, lightChartInstance := none,
        chartDataScript := none } .httpError
      = ({ temperatureChartInstance := none, humidityChartInstance := none,
           noiseChartInstance := none, lightChartInstance := none,
           chartDataScript := none }, true) :=
  c4_amended_failure_preserves_state _ _ _ _ (Or.inl rfl) (Or.inr (Or.inl rfl))

/-! ### Claim C5 -/

/-- C5: for every payload whose series all have the same length as its label
sequence, `apply` yields chart state in which every chart's data length
equals the label count — shown for the three patient charts and, when all
four snapshot instances are initialized, the four snapshot charts. -/
theorem c5_alignment_preserved
    (s : Patient.State) (ss : Snapshot.State)
    (p : Patient.RawPayload) (np : Snapshot.WardPayload)
    (ls : List String) (hr tl ol : List (Option ℚ))
    (hpl : p.labels = some ls) (hph : p.heart_rate = some hr)
    (hpt : p.temperature = some tl) (hpo : p.oxygen_saturation = some ol)
    (lh : hr.length = ls.length) (lt : tl.length = ls.length) (lo : ol.length = ls.length)
    (ws : List String) (ts hs ns lls : List (Option ℚ))
    (hw : np.wards = some ws) (hts : np.temperature = some ts)
    (hhs : np.humidity = some hs) (hns : np.noise = some ns)
    (hlls : np.light_intensity = some lls)
    (l1 : ts.length = ws.length) (l2 : hs.length = ws.length)
    (l3 : ns.length = ws.length) (l4 : lls.length = ws.length)
    (tc hc nc lc : Snapshot.SnapChart)
    (h1 : ss.temperatureChartInstance = some tc) (h2 : ss.humidityChartInstance = some hc)
    (h3 : ss.noiseChartInstance = some nc) (h4 : ss.lightChartInstance = some lc) :
    ((Patient.applyChartData s p).1.heartRateChart.labels = some ls ∧
     (Patient.applyChartData s p).1.heartRateChart.data.map List.length = some ls.length ∧
     (Patient.applyChartData s p).1.temperatureChart.labels = some ls ∧
     (Patient.applyChartData s p).1.temperatureChart.data.map List.length = some ls.length ∧
     (Patient.applyChartData s p).1.oxygenChart.labels = some ls ∧
     (Patient.applyChartData s p).1.oxygenChart.data.map List.length = some ls.length)
    ∧
    ((Snapshot.updateChartData ss np).temperatureChartInstance.map Snapshot.SnapChart.labels
        = some (some ws) ∧
     ((Snapshot.updateChartData ss np).temperatureChartInstance.bind
        Snapshot.SnapChart.data).map List.length = some ws.length ∧
     (Snapshot.updateChartData ss np).humidityChartInstance.map Snapshot.SnapChart.labels
        = some (some ws) ∧
     ((Snapshot.updateChartData ss np).humidityChartInstance.bind
        Snapshot.SnapChart.data).map List.length = some ws.length ∧
     (Snapshot.updateChartData ss np).noiseChartInstance.map Snapshot.SnapChart.labels
        = some (some ws) ∧
     ((Snapshot.updateChartData ss np).noiseChartInstance.bind
        Snapshot.SnapChart.data).map List.length = some ws.length ∧
     (Snapshot.updateChartData ss np).lightChartInstance.map Snapshot.SnapChart.labels
        = some (some ws) ∧
     ((Snapshot.updateChartData ss np).lightChartInstance.bind
        Snapshot.SnapChart.data).map List.length = some ws.length) := by
  have hsnap := snapshot_update_eq ss np tc hc nc lc h1 h2 h3 h4
  constructor
  · refine ⟨?_, ?_, ?_, ?_, ?_, ?_⟩
    · rw [patient_apply_heart]; exact hpl
    · rw [patient_apply_heart]; simp [hph, lh]
    · rw [patient_apply_temp s p tl hpt, openBounds_labels]; exact hpl
    · rw [patient_apply_temp s p tl hpt, openBounds_data]; simp [hpt, lt]
    · rw [patient_apply_oxygen s p tl ol hpt hpo, pctBounds_labels]; exact hpl
    · rw [patient_apply_oxygen s p tl ol hpt hpo, pctBounds_data]; simp [hpo, lo]
  · rw [hsnap]
    refine ⟨?_, ?_, ?_, ?_, ?_, ?_, ?_, ?_⟩ <;>
      simp [hw, hts, hhs, hns, hlls, l1, l2, l3, l4]

/-- Witness for C5: a concrete aligned two-entry payload leaves every chart
with data length 2 = label count in both variants. -/
theorem c5_alignment_preserved_witness :
    ((Patient.applyChartData
        { heartRateChart := { labels := some [], data := some [], yMin := none, yMax := none },
          temperatureChart := { labels := some [], data := some [], yMin := none, yMax := none },
          oxygenChart := { labels := some [], data := some [], yMin := none, yMax := none } }
        { labels := some ["10:00", "10:05"], heart_rate := some [some 72, some 75],
          temperature := some [some 37, none],
          oxygen_saturation := some [some 98, some 99] }).1.heartRateChart.data.map List.length
      = some 2) ∧
    (((Snapshot.updateChartData
        { temperatureChartInstance := some { labels := some [], data := some [] },
          humidityChartInstance := some { labels := some [], data := some [] },
          noiseChartInstance := some { labels := some [], data := some [] },
          lightChartInstance := some { labels := some [], data := some [] },
          chartDataScript := none }
        { wards := some ["A", "B"], temperature := some [some 21, some 22],
          humidity := some [some 40, some 45], noise := some [some 35, some 36],
          light_intensity := some [some 300, some 310] }).noiseChartInstance.bind
            Snapshot.SnapChart.data).map List.length
      = some 2) := by
  have h := c5_alignment_preserved
    { heartRateChart := { labels := some [], data := some [], yMin := none, yMax := none },
      temperatureChart := { labels := some [], data := some [], yMin := none, yMax := none },
      oxygenChart := { labels := some [], data := some [], yMin := none, yMax := none } }
    { temperatureChartInstance := some { labels := some [], data := some [] },
      humidityChartInstance := some { labels := some [], data := some [] },
      noiseChartInstance := some { labels := some [], data := some [] },
      lightChartInstance := some { labels := some [], data := some [] },
      chartDataScript := none }
    { labels := some ["10:00", "10:05"], heart_rate := some [some 72, some 75],
      temperature := some [some 37, none], oxygen_saturation := some [some 98, some 99] }
    { wards := some ["A", "B"], temperature := some [some 21, some 22],
      humidity := some [some 40, some 45], noise := some [some 35, some 36],
      light_intensity := some [some 300, some 310] }
    ["10:00", "10:05"] [some 72, some 75] [some 37, none] [some 98, some 99]
    rfl rfl rfl rfl rfl rfl rfl
    ["A", "B"] [some 21, some 22] [some 40, some 45] [some 35, some 36]
    [some 300, some 310] rfl rfl rfl rfl rfl rfl rfl rfl rfl
    { labels := some [], data := some [] } { labels := some [], data := some [] }
    { labels := some [], data := some [] } { labels := some [], data := some [] }
    rfl rfl rfl rfl
  exact ⟨h.1.2.1, h.2.2.2.2.2.2.1⟩

/-! ### Claim C6 -/

/-- C6: the claim "a missing canvas fails non-fatally for that binding only,
and every binding whose canvas exists is still constructed" is false for the
snapshot variant: with only the humidity canvas missing, `renderCharts`
returns without constructing any chart, so the temperature chart — whose
canvas does exist — is still uninitialized afterwards. -/
theorem c6_counterexample :
    (Snapshot.renderCharts
        { tempCtx := true, humCtx := false, noiseCtx := true, lightCtx := true }
        { temperatureChartInstance := none, humidityChartInstance := none,
          noiseChartInstance := none, lightChartInstance := none,
          chartDataScript := some (.json
            { wards := some ["Ward A"], temperature := some [some 21],
              humidity := some [some 40], noise := some [some 35],
              light_intensity := some [some 300] }) }).temperatureChartInstance
      = none := by
  rfl

/-- C6 (amended): initialization is all-or-nothing, not per-binding.  In the
snapshot variant, if any of the four canvases is absent `renderCharts` logs
and returns with no chart constructed at all (non-fatal, but bindings with
existing canvases are skipped too); in the patient variant a missing canvas
makes `getContext("2d")` throw on `null`, aborting `initializeCharts` — and
with it the whole DOMContentLoaded handler — after constructing only the
charts that precede it. -/
theorem c6_amended_init_all_or_nothing
    (dom : Snapshot.Dom) (s : Snapshot.State) (pdom : Patient.Dom)
    (hdom : dom.tempCtx = false ∨ dom.humCtx = false ∨
            dom.noiseCtx = false ∨ dom.lightCtx = false)
    (hp : pdom.heartRateCanvas = false ∨ pdom.tempCanvas = false ∨
          pdom.oxygenCanvas = false) :
    Snapshot.renderCharts dom s = s ∧
    ∃ e, Patient.initializeCharts pdom = .error e := by
  constructor
  · unfold Snapshot.renderCharts
    cases hsc : s.chartDataScript with
    | none => rfl
    | some sc =>
      cases sc with
      | malformed => rfl
      | json d => rcases hdom with h | h | h | h <;> simp [h]
  · rcases pdom with ⟨a, b, c⟩
    unfold Patient.initializeCharts
    cases a <;> cases b <;> cases c <;>
      first
        | exact ⟨_, rfl⟩
        | (exfalso; rcases hp with h | h | h <;> simp at h)

/-- Witness for C6 (amended): with the temperature canvas absent a concrete
snapshot state is returned unchanged, and with the oxygen canvas absent the
patient initializer throws. -/
theorem c6_amended_init_all_or_nothing_witness :
    Snapshot.renderCharts
      { tempCtx := false, humCtx := true, noiseCtx := true, lightCtx := true }
      { temperatureChartInstance := none, humidityChartInstance := none,
        noiseChartInstance := none, lightChartInstance := none,
        chartDataScript := none }
      = { temperatureChartInstance := none, humidityChartInstance := none,
          noiseChartInstance := none, lightChartInstance := none,
          chartDataScript := none } ∧
    ∃ e, Patient.initializeCharts
      { heartRateCanvas := true, tempCanvas := true, oxygenCanvas := false } = .error e :=
  c6_amended_init_all_or_nothing _ _ _ (Or.inl rfl) (Or.inr (Or.inr rfl))

/-! ### Claim C7 -/

/-- C7: the claim "apply replaces the sequences of every initialized chart,
and is a no-op only for uninitialized bindings" is false: with the
temperature chart initialized but the other three not, `updateChartData` is a
no-op for the whole state, so the initialized temperature chart keeps its old
labels `["Old"]` instead of receiving the payload's `["New"]`. -/
theorem c7_counterexample :
    ((Snapshot.updateChartData
        { temperatureChartInstance := some { labels := some ["Old"], data := some [some 1] },
          humidityChartInstance := none, noiseChartInstance := none,
          lightChartInstance := none, chartDataScript := none }
        { wards := some ["New"], temperature := some [some 2], humidity := some [some 3],
          noise := some [some 4],
          light_intensity := some [some 5] }).temperatureChartInstance.map
            Snapshot.SnapChart.labels
      = some (some ["Old"])) ∧
    some (some ["Old"]) ≠ some (some ["New"]) := by
  exact ⟨rfl, by decide⟩

/-- C7 (amended): `updateChartData` is all-or-nothing.  When all four chart
instances are initialized it replaces every chart's label sequence with
`newData.wards` and its value sequence with the matching payload field
(wholesale, no merge), rewriting the `#chart-data` element when present; when
any instance — including all of them — is uninitialized, the call is a no-op
for the entire state, so even initialized bindings are not updated. -/
theorem c7_amended_apply_all_or_nothing (s : Snapshot.State) (p : Snapshot.WardPayload) :
    (∀ tc hc nc lc : Snapshot.SnapChart,
      s.temperatureChartInstance = some tc → s.humidityChartInstance = some hc →
      s.noiseChartInstance = some nc → s.lightChartInstance = some lc →
      Snapshot.updateChartData s p =
        { temperatureChartInstance := some { labels := p.wards, data := p.temperature },
          humidityChartInstance := some { labels := p.wards, data := p.humidity },
          noiseChartInstance := some { labels := p.wards, data := some (p.noise.getD []) },
          lightChartInstance := some { labels := p.wards,
                                       data := some (p.light_intensity.getD []) },
          chartDataScript :=
            match s.chartDataScript with
            | some _ => some (.json p)
            | none => none }) ∧
    ((s.temperatureChartInstance = none ∨ s.humidityChartInstance = none ∨
      s.noiseChartInstance = none ∨ s.lightChartInstance = none) →
      Snapshot.updateChartData s p = s) := by
  constructor
  · intro tc hc nc lc h1 h2 h3 h4
    exact snapshot_update_eq s p tc hc nc lc h1 h2 h3 h4
  · intro h
    exact snapshot_update_noop s p h

/-- Witness for C7 (amended): a fully initialized concrete state is replaced
wholesale, and a state missing the humidity instance is left untouched. -/
theorem c7_amended_apply_all_or_nothing_witness :
    Snapshot.updateChartData
      { temperatureChartInstance := some { labels := some ["Old"], data := some [some 1] },
        humidityChartInstance := some { labels := some ["Old"], data := some [some 2] },
        noiseChartInstance := some { labels := some ["Old"], data := some [some 3] },
        lightChartInstance := some { labels := some ["Old"], data := some [some 4] },
        chartDataScript := none }
      { wards := some ["New"], temperature := some [some 5], humidity := some [some 6],
        noise := some [some 7], light_intensity := some [some 8] }
      = { temperatureChartInstance := some { labels := some ["New"], data := some [some 5] },
          humidityChartInstance := some { labels := some ["New"], data := some [some 6] },
          noiseChartInstance := some { labels := some ["New"], data := some [some 7] },
          lightChartInstance := some { labels := some ["New"], data := some [some 8] },
          chartDataScript := none } ∧
    Snapshot.updateChartData
      { temperatureChartInstance := some { labels := some ["Old"], data := some [some 1] },
        humidityChartInstance := none, noiseChartInstance := none,
        lightChartInstance := none, chartDataScript := none }
      { wards := some ["New"], temperature := some [some 5], humidity := some [some 6],
        noise := some [some 7], light_intensity := some [some 8] }
      = { temperatureChartInstance := some { labels := some ["Old"], data := some [some 1] },
          humidityChartInstance := none, noiseChartInstance := none,
          lightChartInstance := none, chartDataScript := none } := by
  constructor
  · exact (c7_amended_apply_all_or_nothing _ _).1 _ _ _ _ rfl rfl rfl rfl
  · exact (c7_amended_apply_all_or_nothing _ _).2 (Or.inr (Or.inl rfl))

/-! ### Claim C8 -/

/-- C8: the claim "a tick firing while a fetch is in flight is skipped, so at
most one fetch is in flight" is false: the source's
`setInterval(fetchAndUpdateCharts, 2000)` has no such guard, so two ticks
fired within one fetch's latency window (no settle event between them) leave
two fetches in flight. -/
theorem c8_counterexample :
    Scheduler.inFlightAfter [Scheduler.LoopEvent.tick, Scheduler.LoopEvent.tick] = 2 ∧
    ¬ Scheduler.inFlightAfter [Scheduler.LoopEvent.tick, Scheduler.LoopEvent.tick] ≤ 1 := by
  decide

theorem inFlight_replicate_tick (n acc : ℕ) :
    (List.replicate n Scheduler.LoopEvent.tick).foldl Scheduler.inFlightStep acc = acc + n := by
  induction n generalizing acc with
  | zero => simp
  | succ k ih =>
    rw [List.replicate_succ, List.foldl_cons, ih]
    simp [Scheduler.inFlightStep]
    omega

/-- C8 (amended): the source has no overrun protection — as the spec itself
notes, the skip-while-fetching policy is a recommended strengthening absent
from the code.  Every tick unconditionally starts a new fetch regardless of
the in-flight count, so `n` ticks with no intervening fetch completion leave
`n` fetches in flight simultaneously. -/
theorem c8_amended_no_overrun_guard :
    (∀ n : ℕ, Scheduler.inFlightStep n .tick = n + 1) ∧
    (∀ n : ℕ, Scheduler.inFlightAfter (List.replicate n .tick) = n) := by
  constructor
  · intro n; rfl
  · intro n
    unfold Scheduler.inFlightAfter
    rw [inFlight_replicate_tick]
    omega

/-! ### Claim C9 -/

/-- C9: in the snapshot variant, when the payload's `noise` and
`light_intensity` fields are absent, `updateChartData` substitutes the empty
array (`newData.noise || []`) for those charts' data while their labels
receive the payload's full ward list, so the label/value alignment of those
charts is broken whenever the ward list is non-empty. -/
theorem c9_missing_fields_empty_data
    (s : Snapshot.State) (p : Snapshot.WardPayload)
    (tc hc nc lc : Snapshot.SnapChart)
    (h1 : s.temperatureChartInstance = some tc) (h2 : s.humidityChartInstance = some hc)
    (h3 : s.noiseChartInstance = some nc) (h4 : s.lightChartInstance = some lc)
    (ws : List String) (hw : p.wards = some ws)
    (hn : p.noise = none) (hl : p.light_intensity = none) (hne : ws ≠ []) :
    (Snapshot.updateChartData s p).noiseChartInstance
      = some { labels := some ws, data := some [] } ∧
    (Snapshot.updateChartData s p).lightChartInstance
      = some { labels := some ws, data := some [] } ∧
    ([] : List (Option ℚ)).length ≠ ws.length := by
  have h := snapshot_update_eq s p tc hc nc lc h1 h2 h3 h4
  refine ⟨?_, ?_, ?_⟩
  · rw [h]; simp [hn, hw]
  · rw [h]; simp [hl, hw]
  · simp only [List.length_nil]
    intro h0
    exact hne (List.length_eq_zero.mp h0.symm)

/-- Witness for C9: with one ward and both optional fields absent, the noise
chart ends with empty data under a one-element label list. -/
theorem c9_missing_fields_empty_data_witness :
    (Snapshot.updateChartData
        { temperatureChartInstance := some { labels := some [], data := some [] },
          humidityChartInstance := some { labels := some [], data := some [] },
          noiseChartInstance := some { labels := some [], data := some [] },
          lightChartInstance := some { labels := some [], data := some [] },
          chartDataScript := none }
        { wards := some ["Ward A"], temperature := some [some 21],
          humidity := some [some 40], noise := none,
          light_intensity := none }).noiseChartInstance
      = some { labels := some ["Ward A"], data := some [] } ∧
    ([] : List (Option ℚ)).length ≠ (["Ward A"] : List String).length := by
  have h := c9_missing_fields_empty_data
    { temperatureChartInstance := some { labels := some [], data := some [] },
      humidityChartInstance := some { labels := some [], data := some [] },
      noiseChartInstance := some { labels := some [], data := some [] },
      lightChartInstance := some { labels := some [], data := some [] },
      chartDataScript := none }
    { wards := some ["Ward A"], temperature := some [some 21],
      humidity := some [some 40], noise := none, light_intensity := none }
    { labels := some [], data := some [] } { labels := some [], data := some [] }
    { labels := some [], data := some [] } { labels := some [], data := some [] }
    rfl rfl rfl rfl ["Ward A"] rfl rfl rfl (by simp)
  exact ⟨h.1, h.2.2⟩

/-! ### Claim C10 -/

/-- C10: in the snapshot variant, whenever `updateChartData` applies a
payload (all four instances initialized) and the `#chart-data` script element
exists, it overwrites that element's content with the serialization of the
new payload; a subsequent `renderCharts` call (all canvases present) then
re-reads exactly that payload and reproduces the applied state — it no longer
sees the page's original data. -/
theorem c10_script_element_rewrite
    (dom : Snapshot.Dom) (s : Snapshot.State) (p : Snapshot.WardPayload)
    (tc hc nc lc : Snapshot.SnapChart)
    (h1 : s.temperatureChartInstance = some tc) (h2 : s.humidityChartInstance = some hc)
    (h3 : s.noiseChartInstance = some nc) (h4 : s.lightChartInstance = some lc)
    (sc : Snapshot.ScriptContent) (hsc : s.chartDataScript = some sc)
    (hd1 : dom.tempCtx = true) (hd2 : dom.humCtx = true)
    (hd3 : dom.noiseCtx = true) (hd4 : dom.lightCtx = true) :
    (Snapshot.updateChartData s p).chartDataScript = some (.json p) ∧
    Snapshot.renderCharts dom (Snapshot.updateChartData s p)
      = Snapshot.updateChartData s p := by
  have h := snapshot_update_eq s p tc hc nc lc h1 h2 h3 h4
  rw [h, hsc]
  constructor
  · rfl
  · unfold Snapshot.renderCharts
    simp [hd1, hd2, hd3, hd4]

/-- Witness for C10: after applying a concrete payload, the script element
holds that payload and `renderCharts` is a no-op on the resulting state. -/
theorem c10_script_element_rewrite_witness :
    (Snapshot.updateChartData
        { temperatureChartInstance := some { labels := some [], data := some [] },
          humidityChartInstance := some { labels := some [], data := some [] },
          noiseChartInstance := some { labels := some [], data := some [] },
          lightChartInstance := some { labels := some [], data := some [] },
          chartDataScript := some (.json
            { wards := some ["Original"], temperature := some [some 20],
              humidity := some [some 30], noise := some [some 40],
              light_intensity := some [some 50] }) }
        { wards := some ["Fresh"], temperature := some [some 21],
          humidity := some [some 41], noise := some [some 36],
          light_intensity := some [some 310] }).chartDataScript
      = some (.json
          { wards := some ["Fresh"], temperature := some [some 21],
            humidity := some [some 41], noise := some [some 36],
            light_intensity := some [some 310] }) ∧
    Snapshot.renderCharts { tempCtx := true, humCtx := true, noiseCtx := true, lightCtx := true }
      (Snapshot.updateChartData
        { temperatureChartInstance := some { labels := some [], data := some [] },
          humidityChartInstance := some { labels := some [], data := some [] },
          noiseChartInstance := some { labels := some [], data := some [] },
          lightChartInstance := some { labels := some [], data := some [] },
          chartDataScript := some (.json
            { wards := some ["Original"], temperature := some [some 20],
              humidity := some [some 30], noise := some [some 40],
              light_intensity := some [some 50] }) }
        { wards := some ["Fresh"], temperature := some [some 21],
          humidity := some [some 41], noise := some [some 36],
          light_intensity := some [some 310] })
      = Snapshot.updateChartData
        { temperatureChartInstance := some { labels := some [], data := some [] },
          humidityChartInstance := some { labels := some [], data := some [] },
          noiseChartInstance := some { labels := some [], data := some [] },
          lightChartInstance := some { labels := some [], data := some [] },
          chartDataScript := some (.json
            { wards := some ["Original"], temperature := some [some 20],
              humidity := some [some 30], noise := some [some 40],
              light_intensity := some [some 50] }) }
        { wards := some ["Fresh"], temperature := some [some 21],
          humidity := some [some 41], noise := some [some 36],
          light_intensity := some [some 310] } :=
  c10_script_element_rewrite _ _ _
    { labels := some [], data := some [] } { labels := some [], data := some [] }
    { labels := some [], data := some [] } { labels := some [], data := some [] }
    rfl rfl rfl rfl _ rfl rfl rfl rfl rfl
